import Mathlib

/-!
# AmgXWrapper: `src/misc.cpp`

A shallow embedding of the three member functions of `AmgXSolver` defined in
`misc.cpp` (`setMode`, `getIters`, `getResidual`) together with the properties
of the mode-selection and convergence-reporting contracts.

Modelling conventions.

* A `std::string` is a Lean `String`, one `Char` per `char`; the terminating
  character of a C string is `Char.ofNat 0`.
* C `int` values (`gpuProc`, `iter`, status codes) are `Int`: the code only
  stores and compares them, it performs no arithmetic on them.
* A `double` is a Lean `Float`: the code only moves it.
* A member function becomes a function from the object state before the call
  (and the arguments, including the value an output reference holds before the
  call) to a `Ret`: the returned status, the error message raised (if any), the
  object state after the call, the value of the output reference after the call
  and the list of AmgX library calls issued, in order.
* The AmgX library is external; its two query functions are a parameter
  (`AmgXLibrary`).  They are total functions: a fault inside the library
  (process abort) is outside the model.
-/

namespace AmgXWrapper

/-- The six `AMGX_Mode` tags that `misc.cpp` names. -/
inductive AMGX_Mode where
  | AMGX_mode_hDDI
  | AMGX_mode_hDFI
  | AMGX_mode_hFFI
  | AMGX_mode_dDDI
  | AMGX_mode_dDFI
  | AMGX_mode_dFFI
  deriving DecidableEq, Repr

/-- An `AMGX_solver_handle` is an opaque pointer, modelled by its address. -/
abbrev AMGX_solver_handle := Nat

/-- PETSc status code (`PetscErrorCode` is a C `int`); `0` is success. -/
abbrev PetscErrorCode := Int

/-- The PETSc "wrong argument" error code. `petscerror.h` is not part of this
repository; the value is the one PETSc defines, and the properties below use
only that it differs from `0`. -/
def PETSC_ERR_ARG_WRONG : PetscErrorCode := 62

/-- Modelled from the spec: the class declaration (`AmgXSolver.hpp`) is not
among the sources. The fields are the data model of section 3, under the names
`misc.cpp` uses for them: the mode tag `mode`, the participation indicator
`gpuProc` (an `int`, which the code compares with `0`) and the handle `solver`. -/
structure AmgXSolver where
  mode : AMGX_Mode
  gpuProc : Int
  solver : AMGX_solver_handle
  deriving DecidableEq, Repr

/-- Modelled from the spec: the AmgX query interface of section 6, "get
iteration count" taking a handle and returning an integer, and "get iteration
residual" taking a handle, an iteration index and a norm-slot index and
returning a floating-point value. The returned value is what the C function
stores through its output pointer. -/
structure AmgXLibrary where
  AMGX_solver_get_iterations_number : AMGX_solver_handle → Int
  AMGX_solver_get_iteration_residual : AMGX_solver_handle → Int → Int → Float

/-- One call issued to the AmgX library, with its actual arguments. -/
inductive AmgXCall where
  | get_iterations_number (slv : AMGX_solver_handle)
  | get_iteration_residual (slv : AMGX_solver_handle) (it : Int) (idx : Int)
  deriving DecidableEq, Repr

/-- Everything observable after a member function returns. -/
structure Ret (α : Type) where
  status : PetscErrorCode
  errmsg : Option String
  self : AmgXSolver
  out : α
  calls : List AmgXCall

/-- The characters of `s.c_str()` as `%s` prints them: those before the first
terminating character. -/
def c_str (s : String) : List Char :=
  s.data.takeWhile (fun c => c != Char.ofNat 0)

/-- The text after `%s` in the format string of `setMode`. -/
def modeErrTail : String :=
  " is not an available mode! Available modes are: hDDI, hDFI, hFFI, dDDI, dDFI, dFFI.\n"

/-- The expansion of the format string
`"%s is not an available mode! Available modes are: hDDI, hDFI, hFFI, dDDI, dDFI, dFFI.\n"`
with the argument `modeStr.c_str()`. -/
def modeErrMsg (modeStr : String) : String :=
  String.mk (c_str modeStr) ++ modeErrTail

/-- Macro `SETERRQ1(comm, n, fmt, a1)`: leave the function with status `n` and the
formatted message; the object is as it was. -/
def SETERRQ1 (self : AmgXSolver) (n : PetscErrorCode) (msg : String) : Ret Unit :=
  { status := n, errmsg := some msg, self := self, out := (), calls := [] }

/-- Macro `PetscFunctionReturn(0)`: leave the function with status `0`. -/
def PetscFunctionReturn0 {α : Type} (self : AmgXSolver) (out : α)
    (calls : List AmgXCall) : Ret α :=
  { status := 0, errmsg := none, self := self, out := out, calls := calls }

/-- Member function `AmgXSolver::setMode` (misc.cpp lines 14-36). -/
def setMode (self : AmgXSolver) (modeStr : String) : Ret Unit :=
  if modeStr = "hDDI" then
    PetscFunctionReturn0 { self with mode := .AMGX_mode_hDDI } () []
  else if modeStr = "hDFI" then
    PetscFunctionReturn0 { self with mode := .AMGX_mode_hDFI } () []
  else if modeStr = "hFFI" then
    PetscFunctionReturn0 { self with mode := .AMGX_mode_hFFI } () []
  else if modeStr = "dDDI" then
    PetscFunctionReturn0 { self with mode := .AMGX_mode_dDDI } () []
  else if modeStr = "dDFI" then
    PetscFunctionReturn0 { self with mode := .AMGX_mode_dDFI } () []
  else if modeStr = "dFFI" then
    PetscFunctionReturn0 { self with mode := .AMGX_mode_dFFI } () []
  else
    SETERRQ1 self PETSC_ERR_ARG_WRONG (modeErrMsg modeStr)

/-- Member function `AmgXSolver::getIters` (misc.cpp lines 40-49); `iter` is the value the
output reference holds when the function is entered. -/
def getIters (lib : AmgXLibrary) (self : AmgXSolver) (iter : Int) : Ret Int :=
  if self.gpuProc = 0 then
    PetscFunctionReturn0 self (lib.AMGX_solver_get_iterations_number self.solver)
      [AmgXCall.get_iterations_number self.solver]
  else
    PetscFunctionReturn0 self iter []

/-- Member function `AmgXSolver::getResidual` (misc.cpp lines 53-62); `res` is the value the
output reference holds when the function is entered. -/
def getResidual (lib : AmgXLibrary) (self : AmgXSolver) (iter : Int) (res : Float) :
    Ret Float :=
  if self.gpuProc = 0 then
    PetscFunctionReturn0 self (lib.AMGX_solver_get_iteration_residual self.solver iter 0)
      [AmgXCall.get_iteration_residual self.solver iter 0]
  else
    PetscFunctionReturn0 self res []

/-- One call of a public operation of `misc.cpp` with its arguments; for the
two queries the last argument is the value the output reference holds on entry. -/
inductive Op where
  | callSetMode (modeStr : String)
  | callGetIters (iter : Int)
  | callGetResidual (iter : Int) (res : Float)

/-- The object after one operation on it. -/
def applyOp (lib : AmgXLibrary) (self : AmgXSolver) : Op → AmgXSolver
  | Op.callSetMode modeStr => (setMode self modeStr).self
  | Op.callGetIters iter => (getIters lib self iter).self
  | Op.callGetResidual iter res => (getResidual lib self iter res).self

/-- The object after a sequence of operations performed one after the other. -/
def runOps (lib : AmgXLibrary) (self : AmgXSolver) : List Op → AmgXSolver
  | [] => self
  | op :: ops => runOps lib (applyOp lib self op) ops

/-! ## Auxiliary facts about `setMode` -/

/-- The status of `setMode` is `0` on the six literals of the comparison chain
and `PETSC_ERR_ARG_WRONG` on every other string. -/
theorem setMode_status (self : AmgXSolver) (modeStr : String) :
    (setMode self modeStr).status =
      if modeStr ∈ ["hDDI", "hDFI", "hFFI", "dDDI", "dDFI", "dFFI"] then 0
      else PETSC_ERR_ARG_WRONG := by
  unfold setMode
  split_ifs <;> simp_all [PetscFunctionReturn0, SETERRQ1]

/-- On a string outside the comparison chain `setMode` takes the `SETERRQ1` branch. -/
theorem setMode_rejected (self : AmgXSolver) (modeStr : String)
    (h : modeStr ∉ ["hDDI", "hDFI", "hFFI", "dDDI", "dDFI", "dFFI"]) :
    setMode self modeStr = SETERRQ1 self PETSC_ERR_ARG_WRONG (modeErrMsg modeStr) := by
  simp only [List.mem_cons, List.mem_singleton, not_or, List.mem_nil_iff, or_false] at h
  obtain ⟨h1, h2, h3, h4, h5, h6⟩ := h
  simp [setMode, h1, h2, h3, h4, h5, h6]

/-- Whatever the string, `setMode` changes at most the `mode` field and issues
no library call. -/
theorem setMode_frame (self : AmgXSolver) (modeStr : String) :
    (setMode self modeStr).self.gpuProc = self.gpuProc ∧
    (setMode self modeStr).self.solver = self.solver ∧
    (setMode self modeStr).calls = [] := by
  unfold setMode
  split_ifs <;> simp [PetscFunctionReturn0, SETERRQ1]

/-- The state after `setMode` does not depend on the `mode` field before it,
when the string is one of the six literals. -/
theorem setMode_accepted_self (self : AmgXSolver) (m : AMGX_Mode) (modeStr : String)
    (h : modeStr ∈ ["hDDI", "hDFI", "hFFI", "dDDI", "dDFI", "dFFI"]) :
    (setMode { self with mode := m } modeStr).self = (setMode self modeStr).self := by
  simp only [List.mem_cons, List.mem_singleton, List.mem_nil_iff, or_false] at h
  rcases h with h | h | h | h | h | h <;> subst h <;>
    simp [setMode, PetscFunctionReturn0]

/-- The message is the printed argument followed by the fixed text, character
by character. -/
theorem modeErrMsg_data (modeStr : String) :
    (modeErrMsg modeStr).data = c_str modeStr ++ modeErrTail.data := by
  simp [modeErrMsg]

/-- Each of the six tokens occurs in the fixed text of the message. -/
theorem token_infix_modeErrTail (tok : String)
    (h : tok ∈ ["hDDI", "hDFI", "hFFI", "dDDI", "dDFI", "dFFI"]) :
    tok.data <:+: modeErrTail.data := by
  simp only [List.mem_cons, List.mem_singleton, List.mem_nil_iff, or_false] at h
  rcases h with h | h | h | h | h | h <;> subst h
  · exact ⟨" is not an available mode! Available modes are: ".data,
      ", hDFI, hFFI, dDDI, dDFI, dFFI.\n".data, rfl⟩
  · exact ⟨" is not an available mode! Available modes are: hDDI, ".data,
      ", hFFI, dDDI, dDFI, dFFI.\n".data, rfl⟩
  · exact ⟨" is not an available mode! Available modes are: hDDI, hDFI, ".data,
      ", dDDI, dDFI, dFFI.\n".data, rfl⟩
  · exact ⟨" is not an available mode! Available modes are: hDDI, hDFI, hFFI, ".data,
      ", dDFI, dFFI.\n".data, rfl⟩
  · exact ⟨" is not an available mode! Available modes are: hDDI, hDFI, hFFI, dDDI, ".data,
      ", dFFI.\n".data, rfl⟩
  · exact ⟨" is not an available mode! Available modes are: hDDI, hDFI, hFFI, dDDI, dDFI, ".data,
      ".\n".data, rfl⟩

/-- A string without a terminating character inside it is printed whole by `%s`. -/
theorem c_str_of_no_nul (s : String) (h : Char.ofNat 0 ∉ s.data) : c_str s = s.data := by
  unfold c_str
  rw [List.takeWhile_eq_self_iff]
  intro c hc
  have : c ≠ Char.ofNat 0 := fun e => h (e ▸ hc)
  simpa using this

/-- Neither query touches the object: `getIters` returns it as it was. -/
theorem getIters_self (lib : AmgXLibrary) (self : AmgXSolver) (iter0 : Int) :
    (getIters lib self iter0).self = self := by
  unfold getIters
  split_ifs <;> rfl

/-- Neither query touches the object: `getResidual` returns it as it was. -/
theorem getResidual_self (lib : AmgXLibrary) (self : AmgXSolver) (iter : Int) (res0 : Float) :
    (getResidual lib self iter res0).self = self := by
  unfold getResidual
  split_ifs <;> rfl

/-- A rejected string leaves the whole object as it was. -/
theorem setMode_rejected_self (self : AmgXSolver) (modeStr : String)
    (h : modeStr ∉ ["hDDI", "hDFI", "hFFI", "dDDI", "dDFI", "dFFI"]) :
    (setMode self modeStr).self = self := by
  rw [setMode_rejected self modeStr h]
  rfl

/-- A second `setMode` with the same accepted string leaves the object that the
first one produced. -/
theorem setMode_again_self (self : AmgXSolver) (modeStr : String)
    (h : modeStr ∈ ["hDDI", "hDFI", "hFFI", "dDDI", "dDFI", "dFFI"]) :
    (setMode (setMode self modeStr).self modeStr).self = (setMode self modeStr).self := by
  have hs : (setMode self modeStr).self =
      { self with mode := (setMode self modeStr).self.mode } := by
    have hf := setMode_frame self modeStr
    cases hr : (setMode self modeStr).self
    simp_all
  rw [hs, setMode_accepted_self self _ modeStr h]
  exact hs

/-- A sequence of operations that each leave the object `st` as it is leaves it
as it is. -/
theorem runOps_fixed (lib : AmgXLibrary) (st : AmgXSolver) (ops : List Op)
    (h : ∀ op ∈ ops, applyOp lib st op = st) : runOps lib st ops = st := by
  induction ops with
  | nil => rfl
  | cons op ops ih =>
    have hop : applyOp lib st op = st := h op (List.mem_cons_self op ops)
    have hrest : ∀ o ∈ ops, applyOp lib st o = st :=
      fun o ho => h o (List.mem_cons_of_mem op ho)
    show runOps lib (applyOp lib st op) ops = st
    rw [hop]
    exact ih hrest

/-! ## Mode selection: accepted and rejected strings -/

/-- C1: for each of the six recognized mode strings and every prior solver
state, `setMode` returns status `0` and leaves the `mode` field equal to the
tag of the same name. -/
theorem setMode_recognized (self : AmgXSolver) :
    ((setMode self "hDDI").status = 0 ∧
      (setMode self "hDDI").self.mode = AMGX_Mode.AMGX_mode_hDDI) ∧
    ((setMode self "hDFI").status = 0 ∧
      (setMode self "hDFI").self.mode = AMGX_Mode.AMGX_mode_hDFI) ∧
    ((setMode self "hFFI").status = 0 ∧
      (setMode self "hFFI").self.mode = AMGX_Mode.AMGX_mode_hFFI) ∧
    ((setMode self "dDDI").status = 0 ∧
      (setMode self "dDDI").self.mode = AMGX_Mode.AMGX_mode_dDDI) ∧
    ((setMode self "dDFI").status = 0 ∧
      (setMode self "dDFI").self.mode = AMGX_Mode.AMGX_mode_dDFI) ∧
    ((setMode self "dFFI").status = 0 ∧
      (setMode self "dFFI").self.mode = AMGX_Mode.AMGX_mode_dFFI) := by
  simp [setMode, PetscFunctionReturn0]

/-- C2: `setMode` fails exactly on the strings that are not one of the six
recognized tokens, and when it fails the status is `PETSC_ERR_ARG_WRONG`: the
status is non-zero if and only if the string is outside the six-token set, and
it is `PETSC_ERR_ARG_WRONG` if and only if the string is outside that set. -/
theorem setMode_fails_iff (self : AmgXSolver) (modeStr : String) :
    ((setMode self modeStr).status ≠ 0 ↔
      modeStr ∉ ["hDDI", "hDFI", "hFFI", "dDDI", "dDFI", "dFFI"]) ∧
    ((setMode self modeStr).status = PETSC_ERR_ARG_WRONG ↔
      modeStr ∉ ["hDDI", "hDFI", "hFFI", "dDDI", "dDFI", "dFFI"]) := by
  rw [setMode_status]
  by_cases h : modeStr ∈ ["hDDI", "hDFI", "hFFI", "dDDI", "dDFI", "dFFI"]
  · simp [h, PETSC_ERR_ARG_WRONG]
  · simp [h, PETSC_ERR_ARG_WRONG]

/-- C2 at the inputs the claim names: a case variant, the empty string, and a
token with leading or trailing whitespace are all rejected with
`PETSC_ERR_ARG_WRONG`. -/
theorem setMode_fails_iff_witness :
    (setMode ⟨AMGX_Mode.AMGX_mode_dDDI, 0, 1⟩ "hddi").status = PETSC_ERR_ARG_WRONG ∧
    (setMode ⟨AMGX_Mode.AMGX_mode_dDDI, 0, 1⟩ "").status = PETSC_ERR_ARG_WRONG ∧
    (setMode ⟨AMGX_Mode.AMGX_mode_dDDI, 0, 1⟩ " hDDI").status = PETSC_ERR_ARG_WRONG ∧
    (setMode ⟨AMGX_Mode.AMGX_mode_dDDI, 0, 1⟩ "hDDI ").status = PETSC_ERR_ARG_WRONG ∧
    ¬ (setMode ⟨AMGX_Mode.AMGX_mode_dDDI, 0, 1⟩ "hDDI").status ≠ 0 :=
  ⟨(setMode_fails_iff _ "hddi").2.2 (by decide),
   (setMode_fails_iff _ "").2.2 (by decide),
   (setMode_fails_iff _ " hDDI").2.2 (by decide),
   (setMode_fails_iff _ "hDDI ").2.2 (by decide),
   fun h => (setMode_fails_iff _ "hDDI").1.1 h (by decide)⟩

/-- C3, as stated, fails: the three-character string `x`, NUL, `y` is rejected,
but the message is built from `modeStr.c_str()` through `%s`, which stops at
the NUL; the message is `x` followed by the fixed text, it is not the input
followed by the fixed text, and it does not contain the input. -/
theorem setMode_errmsg_embedded_nul :
    (setMode ⟨AMGX_Mode.AMGX_mode_hDDI, 0, 7⟩
        (String.mk ['x', Char.ofNat 0, 'y'])).status = PETSC_ERR_ARG_WRONG ∧
    (setMode ⟨AMGX_Mode.AMGX_mode_hDDI, 0, 7⟩ (String.mk ['x', Char.ofNat 0, 'y'])).errmsg =
      some "x is not an available mode! Available modes are: hDDI, hDFI, hFFI, dDDI, dDFI, dFFI.\n" ∧
    (setMode ⟨AMGX_Mode.AMGX_mode_hDDI, 0, 7⟩ (String.mk ['x', Char.ofNat 0, 'y'])).errmsg ≠
      some (String.mk ['x', Char.ofNat 0, 'y'] ++
        " is not an available mode! Available modes are: hDDI, hDFI, hFFI, dDDI, dDFI, dFFI.\n") ∧
    ¬ (['x', Char.ofNat 0, 'y'] <:+:
      "x is not an available mode! Available modes are: hDDI, hDFI, hFFI, dDDI, dDFI, dFFI.\n".data) := by
  refine ⟨by decide, by decide, by decide, ?_⟩
  intro h
  have hmem : Char.ofNat 0 ∈
      "x is not an available mode! Available modes are: hDDI, hDFI, hFFI, dDDI, dDFI, dFFI.\n".data :=
    h.subset (by simp)
  revert hmem
  decide

/-- C3 (amended): for every rejected input string the error message is the
part of the string before its first NUL character followed by
`" is not an available mode! Available modes are: hDDI, hDFI, hFFI, dDDI, dDFI, dFFI.\n"`;
it contains each of the six valid tokens; and when the string has no NUL
character the message is the string itself followed by that text, so it
contains the string. -/
theorem setMode_errmsg (self : AmgXSolver) (modeStr : String)
    (h : modeStr ∉ ["hDDI", "hDFI", "hFFI", "dDDI", "dDFI", "dFFI"]) :
    ∃ msg : String,
      (setMode self modeStr).errmsg = some msg ∧
      msg = String.mk (modeStr.data.takeWhile (fun c => c != Char.ofNat 0)) ++
        " is not an available mode! Available modes are: hDDI, hDFI, hFFI, dDDI, dDFI, dFFI.\n" ∧
      (∀ tok ∈ ["hDDI", "hDFI", "hFFI", "dDDI", "dDFI", "dFFI"], tok.data <:+: msg.data) ∧
      (Char.ofNat 0 ∉ modeStr.data →
        msg = modeStr ++
          " is not an available mode! Available modes are: hDDI, hDFI, hFFI, dDDI, dDFI, dFFI.\n" ∧
        modeStr.data <:+: msg.data) := by
  refine ⟨modeErrMsg modeStr, ?_, rfl, ?_, ?_⟩
  · rw [setMode_rejected self modeStr h]
    rfl
  · intro tok htok
    rw [modeErrMsg_data]
    exact (token_infix_modeErrTail tok htok).trans (List.suffix_append _ _).isInfix
  · intro hnul
    have hc : c_str modeStr = modeStr.data := c_str_of_no_nul modeStr hnul
    refine ⟨?_, ?_⟩
    · unfold modeErrMsg
      rw [hc]
      rfl
    · rw [modeErrMsg_data, hc]
      exact (List.prefix_append _ _).isInfix

/-- C3 at the input the spec names: `"xyz"` is rejected, the message is
`"xyz"` followed by the fixed text, and it contains `"xyz"` and the six tokens. -/
theorem setMode_errmsg_witness :
    ∃ msg : String,
      (setMode ⟨AMGX_Mode.AMGX_mode_hDDI, 0, 7⟩ "xyz").errmsg = some msg ∧
      msg =
        "xyz is not an available mode! Available modes are: hDDI, hDFI, hFFI, dDDI, dDFI, dFFI.\n" ∧
      "xyz".data <:+: msg.data ∧
      (∀ tok ∈ ["hDDI", "hDFI", "hFFI", "dDDI", "dDFI", "dFFI"], tok.data <:+: msg.data) := by
  obtain ⟨msg, hmsg, _, htok, hwhole⟩ :=
    setMode_errmsg ⟨AMGX_Mode.AMGX_mode_hDDI, 0, 7⟩ "xyz" (by decide)
  exact ⟨msg, hmsg, (hwhole (by decide)).1, (hwhole (by decide)).2, htok⟩

/-! ## Convergence queries

The source guards both queries with `gpuProc == 0` under the comment "only
processes using AmgX will try to get # of iterations": a process takes part in
the GPU solve exactly when its `gpuProc` is `0`. The participation flag is
therefore false when `gpuProc ≠ 0` and true when `gpuProc = 0`. -/

/-- C4: on a process that does not take part in the GPU solve (`gpuProc ≠ 0`),
`getIters` and `getResidual` issue no library call and leave their output
parameter as it was, for every library, handle, iteration index and initial
output value. -/
theorem queries_noop_of_nonparticipant (lib : AmgXLibrary) (self : AmgXSolver)
    (iter0 : Int) (iter : Int) (res0 : Float) (h : self.gpuProc ≠ 0) :
    (getIters lib self iter0).out = iter0 ∧
    (getIters lib self iter0).calls = [] ∧
    (getResidual lib self iter res0).out = res0 ∧
    (getResidual lib self iter res0).calls = [] := by
  simp [getIters, getResidual, h, PetscFunctionReturn0]

/-- C4 on a process whose `gpuProc` is `-32766`, with a library whose queries
would return `99` and `0.5`. -/
theorem queries_noop_of_nonparticipant_witness :
    (getIters ⟨fun _ => 99, fun _ _ _ => 0.5⟩
      ⟨AMGX_Mode.AMGX_mode_dDDI, -32766, 7⟩ (-1)).out = -1 ∧
    (getIters ⟨fun _ => 99, fun _ _ _ => 0.5⟩
      ⟨AMGX_Mode.AMGX_mode_dDDI, -32766, 7⟩ (-1)).calls = [] ∧
    (getResidual ⟨fun _ => 99, fun _ _ _ => 0.5⟩
      ⟨AMGX_Mode.AMGX_mode_dDDI, -32766, 7⟩ 3 2.5).out = 2.5 ∧
    (getResidual ⟨fun _ => 99, fun _ _ _ => 0.5⟩
      ⟨AMGX_Mode.AMGX_mode_dDDI, -32766, 7⟩ 3 2.5).calls = [] :=
  queries_noop_of_nonparticipant ⟨fun _ => 99, fun _ _ _ => 0.5⟩
    ⟨AMGX_Mode.AMGX_mode_dDDI, -32766, 7⟩ (-1) 3 2.5 (by decide)

/-- C5: on a process that takes part in the GPU solve (`gpuProc = 0`),
`getIters` issues exactly one library call, the iteration-count query on the
solver handle, and the output parameter afterwards is the count that query
returns, whatever it held before. -/
theorem getIters_of_participant (lib : AmgXLibrary) (self : AmgXSolver) (iter0 : Int)
    (h : self.gpuProc = 0) :
    (getIters lib self iter0).calls = [AmgXCall.get_iterations_number self.solver] ∧
    (getIters lib self iter0).out = lib.AMGX_solver_get_iterations_number self.solver := by
  simp [getIters, h, PetscFunctionReturn0]

/-- C5 on a participating process whose library reports `handle + 5`
iterations: the output that held `-1` holds `12` afterwards. -/
theorem getIters_of_participant_witness :
    (getIters ⟨fun slv => slv + 5, fun _ _ _ => 0.5⟩
      ⟨AMGX_Mode.AMGX_mode_dDDI, 0, 7⟩ (-1)).calls = [AmgXCall.get_iterations_number 7] ∧
    (getIters ⟨fun slv => slv + 5, fun _ _ _ => 0.5⟩
      ⟨AMGX_Mode.AMGX_mode_dDDI, 0, 7⟩ (-1)).out = 12 :=
  getIters_of_participant ⟨fun slv => slv + 5, fun _ _ _ => 0.5⟩
    ⟨AMGX_Mode.AMGX_mode_dDDI, 0, 7⟩ (-1) (by decide)

/-- C6: on a process that takes part in the GPU solve (`gpuProc = 0`), for every
iteration index `iter`, `getResidual` issues exactly one library call, the
residual query on the solver handle with iteration index `iter` unchanged and
norm slot `0`, and the output parameter afterwards is the value that query
returns. -/
theorem getResidual_of_participant (lib : AmgXLibrary) (self : AmgXSolver) (iter : Int)
    (res0 : Float) (h : self.gpuProc = 0) :
    (getResidual lib self iter res0).calls =
      [AmgXCall.get_iteration_residual self.solver iter 0] ∧
    (getResidual lib self iter res0).out =
      lib.AMGX_solver_get_iteration_residual self.solver iter 0 := by
  simp [getResidual, h, PetscFunctionReturn0]

/-- C6 on a participating process, with a negative iteration index: the index
reaches the library as it is. -/
theorem getResidual_of_participant_witness :
    (getResidual ⟨fun _ => 99, fun _ it idx => Float.ofInt (it + idx)⟩
      ⟨AMGX_Mode.AMGX_mode_dDDI, 0, 7⟩ (-4) 2.5).calls =
      [AmgXCall.get_iteration_residual 7 (-4) 0] ∧
    (getResidual ⟨fun _ => 99, fun _ it idx => Float.ofInt (it + idx)⟩
      ⟨AMGX_Mode.AMGX_mode_dDDI, 0, 7⟩ (-4) 2.5).out = Float.ofInt (-4 + 0) :=
  getResidual_of_participant ⟨fun _ => 99, fun _ it idx => Float.ofInt (it + idx)⟩
    ⟨AMGX_Mode.AMGX_mode_dDDI, 0, 7⟩ (-4) 2.5 (by decide)

/-- C7: `getIters` and `getResidual` return status `0` for every library,
solver state, `gpuProc` value and argument; of the three operations only
`setMode` can return a non-zero status, and it does so exactly on a string
that is not one of the six tokens. -/
theorem status_nonzero_only_setMode (lib : AmgXLibrary) (self : AmgXSolver)
    (iter0 : Int) (iter : Int) (res0 : Float) (modeStr : String) :
    (getIters lib self iter0).status = 0 ∧
    (getResidual lib self iter res0).status = 0 ∧
    ((setMode self modeStr).status ≠ 0 ↔
      modeStr ∉ ["hDDI", "hDFI", "hFFI", "dDDI", "dDFI", "dFFI"]) := by
  refine ⟨?_, ?_, ?_⟩
  · unfold getIters
    split_ifs <;> rfl
  · unfold getResidual
    split_ifs <;> rfl
  · rw [setMode_status]
    by_cases h : modeStr ∈ ["hDDI", "hDFI", "hFFI", "dDDI", "dDFI", "dFFI"]
    · simp [h]
    · simp [h, PETSC_ERR_ARG_WRONG]

/-! ## Algebraic and frame properties of `setMode` -/

/-- C8: for every valid mode string and every starting state, calling
`setMode` twice in a row with that string succeeds both times, and the state
after the second call equals the state after the first. -/
theorem setMode_idempotent (self : AmgXSolver) (modeStr : String)
    (h : modeStr ∈ ["hDDI", "hDFI", "hFFI", "dDDI", "dDFI", "dFFI"]) :
    (setMode self modeStr).status = 0 ∧
    (setMode (setMode self modeStr).self modeStr).status = 0 ∧
    (setMode (setMode self modeStr).self modeStr).self = (setMode self modeStr).self := by
  simp only [List.mem_cons, List.mem_singleton, List.mem_nil_iff, or_false] at h
  rcases h with h | h | h | h | h | h <;> subst h <;>
    simp [setMode, PetscFunctionReturn0]

/-- C8 at `"dFFI"` from a state whose mode is `AMGX_mode_hDDI`. -/
theorem setMode_idempotent_witness :
    (setMode ⟨AMGX_Mode.AMGX_mode_hDDI, 0, 7⟩ "dFFI").status = 0 ∧
    (setMode (setMode ⟨AMGX_Mode.AMGX_mode_hDDI, 0, 7⟩ "dFFI").self "dFFI").status = 0 ∧
    (setMode (setMode ⟨AMGX_Mode.AMGX_mode_hDDI, 0, 7⟩ "dFFI").self "dFFI").self =
      (setMode ⟨AMGX_Mode.AMGX_mode_hDDI, 0, 7⟩ "dFFI").self :=
  setMode_idempotent ⟨AMGX_Mode.AMGX_mode_hDDI, 0, 7⟩ "dFFI" (by decide)

/-- C9: for every pair of valid mode strings `s1`, `s2` and every starting
state, `setMode s1` followed by `setMode s2` succeeds both times and leaves the
mode that `setMode s2` alone leaves: the tag of `s2`. -/
theorem setMode_last_call_wins (self : AmgXSolver) (s1 s2 : String)
    (h1 : s1 ∈ ["hDDI", "hDFI", "hFFI", "dDDI", "dDFI", "dFFI"])
    (h2 : s2 ∈ ["hDDI", "hDFI", "hFFI", "dDDI", "dDFI", "dFFI"]) :
    (setMode self s1).status = 0 ∧
    (setMode (setMode self s1).self s2).status = 0 ∧
    (setMode (setMode self s1).self s2).self.mode = (setMode self s2).self.mode := by
  have hs : (setMode self s1).self = { self with mode := (setMode self s1).self.mode } := by
    have hf := setMode_frame self s1
    cases hr : (setMode self s1).self
    simp_all
  refine ⟨?_, ?_, ?_⟩
  · rw [setMode_status, if_pos h1]
  · rw [setMode_status, if_pos h2]
  · rw [hs, setMode_accepted_self self _ s2 h2]

/-- C9 at `"hDFI"` then `"dDDI"`: the final mode is `AMGX_mode_dDDI`. -/
theorem setMode_last_call_wins_witness :
    (setMode ⟨AMGX_Mode.AMGX_mode_hFFI, 0, 7⟩ "hDFI").status = 0 ∧
    (setMode (setMode ⟨AMGX_Mode.AMGX_mode_hFFI, 0, 7⟩ "hDFI").self "dDDI").status = 0 ∧
    (setMode (setMode ⟨AMGX_Mode.AMGX_mode_hFFI, 0, 7⟩ "hDFI").self "dDDI").self.mode =
      AMGX_Mode.AMGX_mode_dDDI :=
  setMode_last_call_wins ⟨AMGX_Mode.AMGX_mode_hFFI, 0, 7⟩ "hDFI" "dDDI"
    (by decide) (by decide)

/-- C10: for every input string, valid or not, and every starting state,
`setMode` leaves `gpuProc` and the solver handle as they were and issues no
call to the GPU solver library. -/
theorem setMode_only_sets_mode (self : AmgXSolver) (modeStr : String) :
    (setMode self modeStr).self.gpuProc = self.gpuProc ∧
    (setMode self modeStr).self.solver = self.solver ∧
    (setMode self modeStr).calls = [] :=
  setMode_frame self modeStr

/-! ## Frame of the queries, uniformity and rejection -/

/-- C11: for every library, state and argument, `getIters` and `getResidual`
leave the `mode` field, `gpuProc` and the solver handle as they were: the object
after the call is the object before it, and only the output parameter can
differ. -/
theorem queries_read_only (lib : AmgXLibrary) (self : AmgXSolver) (iter0 : Int)
    (iter : Int) (res0 : Float) :
    ((getIters lib self iter0).self.mode = self.mode ∧
      (getIters lib self iter0).self.gpuProc = self.gpuProc ∧
      (getIters lib self iter0).self.solver = self.solver ∧
      (getIters lib self iter0).self = self) ∧
    ((getResidual lib self iter res0).self.mode = self.mode ∧
      (getResidual lib self iter res0).self.gpuProc = self.gpuProc ∧
      (getResidual lib self iter res0).self.solver = self.solver ∧
      (getResidual lib self iter res0).self = self) := by
  rw [getIters_self, getResidual_self]
  simp

/-- C14: when `setMode` fails on an unrecognized string, the whole object, the
`mode` field included, is what it was before the call; so the mode selected by
an earlier successful `setMode` is still there after a later rejected call. -/
theorem setMode_rejection_atomic (self : AmgXSolver) (modeStr : String) (valid : String)
    (h : (setMode self modeStr).status ≠ 0) :
    (setMode self modeStr).self = self ∧
    (setMode self modeStr).self.mode = self.mode ∧
    (setMode (setMode self valid).self modeStr).status ≠ 0 ∧
    (setMode (setMode self valid).self modeStr).self = (setMode self valid).self ∧
    (setMode (setMode self valid).self modeStr).self.mode = (setMode self valid).self.mode := by
  have hbad : modeStr ∉ ["hDDI", "hDFI", "hFFI", "dDDI", "dDFI", "dFFI"] := by
    intro hin
    rw [setMode_status, if_pos hin] at h
    exact h rfl
  have hst : ∀ st : AmgXSolver, (setMode st modeStr).status ≠ 0 := by
    intro st
    rw [setMode_status, if_neg hbad]
    decide
  rw [setMode_rejected_self self modeStr hbad,
    setMode_rejected_self (setMode self valid).self modeStr hbad]
  exact ⟨rfl, rfl, hst _, rfl, rfl⟩

/-- C14 at `"dDDI"` followed by the rejected `"dddi"`: the mode is still
`AMGX_mode_dDDI`. -/
theorem setMode_rejection_atomic_witness :
    (setMode ⟨AMGX_Mode.AMGX_mode_hFFI, 0, 7⟩ "dddi").self = ⟨AMGX_Mode.AMGX_mode_hFFI, 0, 7⟩ ∧
    (setMode (setMode ⟨AMGX_Mode.AMGX_mode_hFFI, 0, 7⟩ "dDDI").self "dddi").status ≠ 0 ∧
    (setMode (setMode ⟨AMGX_Mode.AMGX_mode_hFFI, 0, 7⟩ "dDDI").self "dddi").self.mode =
      AMGX_Mode.AMGX_mode_dDDI :=
  have h := setMode_rejection_atomic ⟨AMGX_Mode.AMGX_mode_hFFI, 0, 7⟩ "dddi" "dDDI" (by decide)
  ⟨h.1, h.2.2.1, h.2.2.2.2⟩

/-- C15: the gate of both queries is the integer test `gpuProc == 0`. Each of
`getIters` and `getResidual` issues a library call if and only if `gpuProc` is
`0`; when it is `0` the single query is issued and its result replaces the
output; for every other `gpuProc` value no call is issued and the output is what
it was. -/
theorem queries_gate_is_gpuProc_zero (lib : AmgXLibrary) (self : AmgXSolver) (iter0 : Int)
    (iter : Int) (res0 : Float) :
    ((getIters lib self iter0).calls ≠ [] ↔ self.gpuProc = 0) ∧
    ((getResidual lib self iter res0).calls ≠ [] ↔ self.gpuProc = 0) ∧
    (self.gpuProc = 0 →
      (getIters lib self iter0).calls = [AmgXCall.get_iterations_number self.solver] ∧
      (getIters lib self iter0).out = lib.AMGX_solver_get_iterations_number self.solver ∧
      (getResidual lib self iter res0).calls =
        [AmgXCall.get_iteration_residual self.solver iter 0] ∧
      (getResidual lib self iter res0).out =
        lib.AMGX_solver_get_iteration_residual self.solver iter 0) ∧
    (self.gpuProc ≠ 0 →
      (getIters lib self iter0).calls = [] ∧
      (getIters lib self iter0).out = iter0 ∧
      (getResidual lib self iter res0).calls = [] ∧
      (getResidual lib self iter res0).out = res0) := by
  by_cases h : self.gpuProc = 0
  · simp [getIters, getResidual, h, PetscFunctionReturn0]
  · simp [getIters, getResidual, h, PetscFunctionReturn0]

/-- C15 at `gpuProc` equal to `1`, `-1` and `-32766` (no call, output kept) and
at `gpuProc` equal to `0` (one call, output replaced). -/
theorem queries_gate_is_gpuProc_zero_witness :
    ((getIters ⟨fun _ => 99, fun _ _ _ => 0.5⟩ ⟨AMGX_Mode.AMGX_mode_dDDI, 1, 7⟩ (-1)).calls = [] ∧
      (getIters ⟨fun _ => 99, fun _ _ _ => 0.5⟩ ⟨AMGX_Mode.AMGX_mode_dDDI, 1, 7⟩ (-1)).out = -1) ∧
    ((getIters ⟨fun _ => 99, fun _ _ _ => 0.5⟩ ⟨AMGX_Mode.AMGX_mode_dDDI, -1, 7⟩ (-1)).calls = [] ∧
      (getResidual ⟨fun _ => 99, fun _ _ _ => 0.5⟩
        ⟨AMGX_Mode.AMGX_mode_dDDI, -1, 7⟩ 3 2.5).out = 2.5) ∧
    ((getResidual ⟨fun _ => 99, fun _ _ _ => 0.5⟩
        ⟨AMGX_Mode.AMGX_mode_dDDI, -32766, 7⟩ 3 2.5).calls = [] ∧
      (getResidual ⟨fun _ => 99, fun _ _ _ => 0.5⟩
        ⟨AMGX_Mode.AMGX_mode_dDDI, -32766, 7⟩ 3 2.5).out = 2.5) ∧
    ((getIters ⟨fun _ => 99, fun _ _ _ => 0.5⟩ ⟨AMGX_Mode.AMGX_mode_dDDI, 0, 7⟩ (-1)).calls =
        [AmgXCall.get_iterations_number 7] ∧
      (getIters ⟨fun _ => 99, fun _ _ _ => 0.5⟩ ⟨AMGX_Mode.AMGX_mode_dDDI, 0, 7⟩ (-1)).out = 99 ∧
      (getResidual ⟨fun _ => 99, fun _ _ _ => 0.5⟩ ⟨AMGX_Mode.AMGX_mode_dDDI, 0, 7⟩ 3 2.5).out =
        0.5) :=
  have h1 := (queries_gate_is_gpuProc_zero ⟨fun _ => 99, fun _ _ _ => 0.5⟩
    ⟨AMGX_Mode.AMGX_mode_dDDI, 1, 7⟩ (-1) 3 2.5).2.2.2 (by decide)
  have h2 := (queries_gate_is_gpuProc_zero ⟨fun _ => 99, fun _ _ _ => 0.5⟩
    ⟨AMGX_Mode.AMGX_mode_dDDI, -1, 7⟩ (-1) 3 2.5).2.2.2 (by decide)
  have h3 := (queries_gate_is_gpuProc_zero ⟨fun _ => 99, fun _ _ _ => 0.5⟩
    ⟨AMGX_Mode.AMGX_mode_dDDI, -32766, 7⟩ (-1) 3 2.5).2.2.2 (by decide)
  have h0 := (queries_gate_is_gpuProc_zero ⟨fun _ => 99, fun _ _ _ => 0.5⟩
    ⟨AMGX_Mode.AMGX_mode_dDDI, 0, 7⟩ (-1) 3 2.5).2.2.1 (by decide)
  ⟨⟨h1.1, h1.2.1⟩, ⟨h2.1, h2.2.2.2⟩, ⟨h3.2.2.1, h3.2.2.2⟩, ⟨h0.1, h0.2.1, h0.2.2.2⟩⟩

/-- C12, as stated, fails: the resulting mode does depend on the previously
stored mode when the string is rejected. Two states that differ only in `mode`,
given the same string `"xyz"`, get the same status but end with different
modes. -/
theorem setMode_mode_depends_on_prior_when_rejected :
    (setMode ⟨AMGX_Mode.AMGX_mode_hDDI, 0, 7⟩ "xyz").status =
      (setMode ⟨AMGX_Mode.AMGX_mode_dDDI, 0, 7⟩ "xyz").status ∧
    (setMode ⟨AMGX_Mode.AMGX_mode_hDDI, 0, 7⟩ "xyz").self.mode = AMGX_Mode.AMGX_mode_hDDI ∧
    (setMode ⟨AMGX_Mode.AMGX_mode_dDDI, 0, 7⟩ "xyz").self.mode = AMGX_Mode.AMGX_mode_dDDI ∧
    (setMode ⟨AMGX_Mode.AMGX_mode_hDDI, 0, 7⟩ "xyz").self.mode ≠
      (setMode ⟨AMGX_Mode.AMGX_mode_dDDI, 0, 7⟩ "xyz").self.mode := by
  decide

/-- C12 (amended): the status `setMode` returns depends only on the input
string, for every string; for a valid string the resulting mode also depends
only on the string, not on `gpuProc`, the solver handle or the mode stored
before, so any two starting states given the same valid string end with the
same mode and the same status; for a rejected string the resulting mode is the
one each state stored before. -/
theorem setMode_uniform (s1 s2 : AmgXSolver) (modeStr : String) :
    (setMode s1 modeStr).status = (setMode s2 modeStr).status ∧
    (modeStr ∈ ["hDDI", "hDFI", "hFFI", "dDDI", "dDFI", "dFFI"] →
      (setMode s1 modeStr).self.mode = (setMode s2 modeStr).self.mode ∧
      (setMode s1 modeStr).status = 0 ∧ (setMode s2 modeStr).status = 0) ∧
    (modeStr ∉ ["hDDI", "hDFI", "hFFI", "dDDI", "dDFI", "dFFI"] →
      (setMode s1 modeStr).self.mode = s1.mode ∧
      (setMode s2 modeStr).self.mode = s2.mode) := by
  refine ⟨?_, ?_, ?_⟩
  · rw [setMode_status, setMode_status]
  · intro h
    refine ⟨?_, ?_, ?_⟩
    · simp only [List.mem_cons, List.mem_singleton, List.mem_nil_iff, or_false] at h
      rcases h with h | h | h | h | h | h <;> subst h <;>
        simp [setMode, PetscFunctionReturn0]
    · rw [setMode_status, if_pos h]
    · rw [setMode_status, if_pos h]
  · intro h
    rw [setMode_rejected_self s1 modeStr h, setMode_rejected_self s2 modeStr h]
    exact ⟨rfl, rfl⟩

/-- C12 at `"dDFI"` from two states that differ in all three fields: both end
with `AMGX_mode_dDFI` and status `0`. -/
theorem setMode_uniform_witness :
    (setMode ⟨AMGX_Mode.AMGX_mode_hDDI, 0, 7⟩ "dDFI").self.mode =
      (setMode ⟨AMGX_Mode.AMGX_mode_hFFI, -32766, 0⟩ "dDFI").self.mode ∧
    (setMode ⟨AMGX_Mode.AMGX_mode_hDDI, 0, 7⟩ "dDFI").status = 0 ∧
    (setMode ⟨AMGX_Mode.AMGX_mode_hFFI, -32766, 0⟩ "dDFI").status = 0 :=
  (setMode_uniform ⟨AMGX_Mode.AMGX_mode_hDDI, 0, 7⟩ ⟨AMGX_Mode.AMGX_mode_hFFI, -32766, 0⟩
    "dDFI").2.1 (by decide)

/-! ## The mode field over sequences of operations -/

/-- C13, as stated, fails: after a first successful `setMode "hDDI"` a later
`setMode "dDDI"` succeeds and changes the mode field from `AMGX_mode_hDDI` to
`AMGX_mode_dDDI`. -/
theorem mode_not_immutable_after_setMode :
    (setMode ⟨AMGX_Mode.AMGX_mode_hFFI, 0, 7⟩ "hDDI").status = 0 ∧
    (setMode ⟨AMGX_Mode.AMGX_mode_hFFI, 0, 7⟩ "hDDI").self.mode = AMGX_Mode.AMGX_mode_hDDI ∧
    (runOps ⟨fun _ => 0, fun _ _ _ => 0⟩ (setMode ⟨AMGX_Mode.AMGX_mode_hFFI, 0, 7⟩ "hDDI").self
      [Op.callSetMode "dDDI"]).mode = AMGX_Mode.AMGX_mode_dDDI ∧
    (runOps ⟨fun _ => 0, fun _ _ _ => 0⟩ (setMode ⟨AMGX_Mode.AMGX_mode_hFFI, 0, 7⟩ "hDDI").self
      [Op.callSetMode "dDDI"]).mode ≠
      (setMode ⟨AMGX_Mode.AMGX_mode_hFFI, 0, 7⟩ "hDDI").self.mode := by
  decide

/-- C13 (amended): after a first successful `setMode modeStr`, no later sequence
of `getIters`, `getResidual` and `setMode` calls in which every `setMode`
argument is either an unrecognized string or `modeStr` itself changes the mode
field; such a sequence leaves the whole object as it was. -/
theorem mode_stable_after_setMode (lib : AmgXLibrary) (self : AmgXSolver) (modeStr : String)
    (ops : List Op) (h : (setMode self modeStr).status = 0)
    (hops : ∀ t, Op.callSetMode t ∈ ops →
      t ∉ ["hDDI", "hDFI", "hFFI", "dDDI", "dDFI", "dFFI"] ∨ t = modeStr) :
    (runOps lib (setMode self modeStr).self ops).mode = (setMode self modeStr).self.mode ∧
    runOps lib (setMode self modeStr).self ops = (setMode self modeStr).self := by
  have hin : modeStr ∈ ["hDDI", "hDFI", "hFFI", "dDDI", "dDFI", "dFFI"] := by
    by_contra hout
    rw [setMode_status, if_neg hout] at h
    exact absurd h (by decide)
  have hfix : runOps lib (setMode self modeStr).self ops = (setMode self modeStr).self := by
    apply runOps_fixed
    intro op hop
    cases op with
    | callSetMode t =>
      show (setMode (setMode self modeStr).self t).self = (setMode self modeStr).self
      rcases hops t hop with ht | ht
      · exact setMode_rejected_self _ t ht
      · rw [ht]
        exact setMode_again_self self modeStr hin
    | callGetIters iter => exact getIters_self lib _ iter
    | callGetResidual iter res => exact getResidual_self lib _ iter res
  exact ⟨by rw [hfix], hfix⟩

/-- C13 (amended) after `setMode "dDDI"`, over a sequence of both queries, a
rejected `setMode "xyz"` and a repeated `setMode "dDDI"`: the mode is still
`AMGX_mode_dDDI`. -/
theorem mode_stable_after_setMode_witness :
    (runOps ⟨fun _ => 99, fun _ _ _ => 0.5⟩ (setMode ⟨AMGX_Mode.AMGX_mode_hFFI, 0, 7⟩ "dDDI").self
      [Op.callGetIters (-1), Op.callSetMode "xyz", Op.callGetResidual 3 2.5,
        Op.callSetMode "dDDI"]).mode = AMGX_Mode.AMGX_mode_dDDI :=
  (mode_stable_after_setMode ⟨fun _ => 99, fun _ _ _ => 0.5⟩ ⟨AMGX_Mode.AMGX_mode_hFFI, 0, 7⟩
    "dDDI" [Op.callGetIters (-1), Op.callSetMode "xyz", Op.callGetResidual 3 2.5,
      Op.callSetMode "dDDI"] (by decide)
    (by
      intro t ht
      simp only [List.mem_cons, List.mem_singleton, Op.callSetMode.injEq, List.mem_nil_iff,
        or_false, false_or, reduceCtorEq] at ht
      rcases ht with ht | ht
      · left
        rw [ht]
        decide
      · right
        exact ht)).1

end AmgXWrapper
